import Mathlib

/-!
Verification of the x86 frame layer of a JVM runtime
(`src/hotspot/cpu/x86/frame_x86.cpp`): the stack-walk safety validator
`frame::safe_for_sender`, the interpreted-frame validator
`frame::is_interpreted_frame_valid`, the deoptimization pc patcher
`frame::patch_pc`, the result extractor `frame::interpreter_frame_result`,
and the entry-frame sender / anchor-capture logic.

Modelling conventions:
* Addresses are mathematical integers measured in bytes; a machine word is
  `wordSize = 8` bytes.  Memory is a total function from (word-aligned)
  byte addresses to the 64-bit word stored there, `Mem := Int → Int`.
  Null pointers are the address `0`.
* External collaborators (the per-thread stack-bounds oracle, the code
  registry / code cache, interpreter span test, continuation support,
  method metadata) are passed in as read-only oracle records `Thread` and
  `Ctx`, exactly the queries the source file makes of them.  Code regions
  (`CodeBlob*`) are identified by a `Nat` key into the registry.
* Debug assertions that the source treats as fatal invariant violations
  are modelled by returning `none` from an `Option`-valued function.
-/

/-- Bytes per machine word (64-bit x86). -/
def wordSize : Int := 8

/-- `frame::link_offset`: saved fp slot, at fp. Fixed ABI offset (in words)
declared in the platform frame header. -/
def link_offset : Int := 0

/-- `frame::return_addr_offset`: return-address slot, one word above fp. -/
def return_addr_offset : Int := 1

/-- `frame::sender_sp_offset`: the sender's sp is two words above fp for
compiled frames; also the fixed negative offset (in words) below a compiled
sender sp at which the saved fp sits. -/
def sender_sp_offset : Int := 2

/-- `frame::pc_return_offset`. -/
def pc_return_offset : Int := 0

/-- `frame::interpreter_frame_sender_sp_offset`: sender's unextended sp slot. -/
def interpreter_frame_sender_sp_offset : Int := -1

/-- `frame::interpreter_frame_last_sp_offset`. -/
def interpreter_frame_last_sp_offset : Int := -2

/-- `frame::interpreter_frame_method_offset`: the Method* slot. -/
def interpreter_frame_method_offset : Int := -3

/-- `frame::interpreter_frame_cache_offset`: the ConstantPoolCache* slot. -/
def interpreter_frame_cache_offset : Int := -6

/-- `frame::interpreter_frame_locals_offset`. -/
def interpreter_frame_locals_offset : Int := -7

/-- `frame::interpreter_frame_bcp_offset`: the saved bytecode pointer slot. -/
def interpreter_frame_bcp_offset : Int := -8

/-- `frame::interpreter_frame_initial_sp_offset`. -/
def interpreter_frame_initial_sp_offset : Int := -9

/-- `frame::interpreter_frame_oop_temp_offset` (native calls only). -/
def interpreter_frame_oop_temp_offset : Int := 2

/-- `Interpreter::stackElementSize` in bytes (one word per stack element). -/
def Interpreter_stackElementSize : Int := 8

/-- `Interpreter::stackElementWords`. -/
def Interpreter_stackElementWords : Int := 1

/-- Stack memory: word value stored at each byte address. -/
def Mem : Type := Int → Int

/-- Deoptimization state of a frame (`frame::deopt_state`). -/
inductive DeoptState where
  | not_deoptimized
  | is_deoptimized
deriving DecidableEq, Repr

/-- Kind tag of a code region, as classified by the code registry
(`CodeBlob::is_compiled`, `is_adapter_blob`, `is_runtime_stub`,
`is_optimized_entry_blob`; `buffer` stands for any other generic blob). -/
inductive CodeKind where
  | compiled
  | adapter
  | runtimeStub
  | optimizedEntry
  | buffer
deriving DecidableEq, Repr

/-- The closed set of declared result kinds (`BasicType`); `T_ILLEGAL`
stands for any tag outside the recognized set. -/
inductive BasicType where
  | T_OBJECT
  | T_ARRAY
  | T_BOOLEAN
  | T_BYTE
  | T_CHAR
  | T_SHORT
  | T_INT
  | T_LONG
  | T_FLOAT
  | T_DOUBLE
  | T_VOID
  | T_ILLEGAL
deriving DecidableEq, Repr

/-- A frame snapshot: `frame::_sp`, `_fp`, `_unextended_sp`, `_pc`,
owning code region `_cb` (a registry key, `none` for native frames) and
`_deopt_state`. -/
structure Frame where
  sp : Int
  unextendedSp : Int
  fp : Int
  pc : Int
  cb : Option Nat
  deoptState : DeoptState
deriving DecidableEq

/-- Per-thread stack-bounds oracle (`JavaThread::is_in_usable_stack`,
`is_in_stack_range_incl`, `is_in_stack_range_excl`,
`is_in_full_stack_checked`), external to this file. -/
structure Thread where
  isInUsableStack : Int → Bool
  isInStackRangeIncl : Int → Int → Bool
  isInStackRangeExcl : Int → Int → Bool
  isInFullStackChecked : Int → Bool

/-- The `JavaFrameAnchor` boundary record: last recorded Java sp, fp, pc
(`0` = null / not yet captured). -/
structure JavaFrameAnchor where
  lastJavaSp : Int
  lastJavaFp : Int
  lastJavaPc : Int
deriving DecidableEq, Repr

/-- Read-only oracle record for every external collaborator the source
queries: code-registry metadata keyed by blob id, the code cache lookup,
interpreter/stub span tests, continuation support, and method metadata. -/
structure Ctx where
  blobKind : Nat → CodeKind
  frameCompleteAt : Nat → Int → Bool
  codeContains : Nat → Int → Bool
  frameSize : Nat → Int
  isZombie : Nat → Bool
  isUnloaded : Nat → Bool
  isDeoptEntry : Nat → Int → Bool
  isDeoptMhEntry : Nat → Int → Bool
  isMethodHandleIntrinsic : Nat → Bool
  findBlob : Int → Option Nat
  findBlobUnsafe : Int → Option Nat
  returnsToCallStub : Int → Bool
  interpreterContains : Int → Bool
  isReturnBarrierEntry : Int → Bool
  fixContBottomSender : Frame → Int → Int → Int × Int
  entryFrameValid : Frame → Bool
  entryFrameCallWrapper : Frame → Int
  isValidMethod : Int → Bool
  maxStack : Int → Int
  validateBciFromBcp : Int → Int → Int
  metaspaceValid : Int → Bool
  getDeoptOriginalPc : Option Nat → Int → Mem → Option Int
  frameMethod : Frame → Int
  resultType : Int → BasicType
  isNative : Int → Bool
  tosAddress : Frame → Int
  isInHeap : Int → Bool
  entryFrameAnchor : Frame → JavaFrameAnchor
  optEntryAnchor : Frame → JavaFrameAnchor

/-- Modelled from the spec: the frame constructor
`frame(sp, unextended_sp, fp, pc)` (declared in the platform frame header,
not part of this translation unit) records the four registers and looks the
owning code region up in the code registry. -/
def mkFrame (c : Ctx) (sp usp fp pc : Int) : Frame :=
  { sp := sp, unextendedSp := usp, fp := fp, pc := pc,
    cb := c.findBlob pc, deoptState := .not_deoptimized }

/-- `frame::is_interpreted_frame_valid` (frame_x86.cpp lines 474-524):
the stricter validator applied to a sender reconstructed from
possibly-unreliable data. -/
def is_interpreted_frame_valid (t : Thread) (c : Ctx) (m : Mem)
    (f : Frame) : Bool :=
  -- fp and sp non-null and word aligned
  if f.fp = 0 || f.fp % wordSize != 0 then false
  else if f.sp = 0 || f.sp % wordSize != 0 then false
  -- fp + interpreter_frame_initial_sp_offset < sp
  else if f.fp + wordSize * interpreter_frame_initial_sp_offset < f.sp then false
  -- fp <= sp
  else if f.fp ≤ f.sp then false
  else
    -- the Method* stored in the frame must be plausible
    let meth := m (f.fp + wordSize * interpreter_frame_method_offset)
    if !(c.isValidMethod meth) then false
    -- fp() - unextended_sp() is an intptr_t* difference, i.e. in words
    else if (f.fp - f.unextendedSp).tdiv wordSize >
        1024 + c.maxStack meth * Interpreter_stackElementSize then false
    else
      let bcp := m (f.fp + wordSize * interpreter_frame_bcp_offset)
      if c.validateBciFromBcp meth bcp < 0 then false
      else
        let cp := m (f.fp + wordSize * interpreter_frame_cache_offset)
        if !(c.metaspaceValid cp) then false
        else
          let locals := m (f.fp + wordSize * interpreter_frame_locals_offset)
          t.isInStackRangeIncl locals f.fp

/-- The `fp_safe` probe of `safe_for_sender` (lines 75-76): fp strictly
within (sp, stack top) and the return-address slot reachable from fp within
full stack bounds. -/
def fp_safe_check (t : Thread) (f : Frame) : Bool :=
  t.isInStackRangeExcl f.fp f.sp &&
    t.isInFullStackChecked (f.fp + return_addr_offset * wordSize)

/-- Provisional sender sp of a compiled/runtime frame (line 138):
`_unextended_sp + _cb->frame_size()`, pointer arithmetic in words. -/
def compiled_sender_sp (c : Ctx) (f : Frame) (b : Nat) : Int :=
  f.unextendedSp + wordSize * c.frameSize b

/-- Shared tail of `safe_for_sender` (lines 150-243): validation of the
provisional sender tuple (sender sp, sender unextended sp, saved fp,
sender pc) computed from either an interpreted or a compiled frame. -/
def safe_sender_check (t : Thread) (c : Ctx) (m : Mem) (f : Frame)
    (sender_sp0 sender_unextended_sp saved_fp sender_pc0 : Int) : Bool :=
  -- line 150: a continuation return-barrier sender pc is redirected first
  let p := if c.isReturnBarrierEntry sender_pc0
           then c.fixContBottomSender f sender_pc0 sender_sp0
           else (sender_pc0, sender_sp0)
  let sender_pc := p.1
  let sender_sp := p.2
  if c.interpreterContains sender_pc then
    -- line 161: saved fp must lie strictly within (sp, sender sp)
    if !(t.isInStackRangeExcl saved_fp sender_sp) then false
    else
      is_interpreted_frame_valid t c m
        (mkFrame c sender_sp sender_unextended_sp saved_fp sender_pc)
  else
    match c.findBlobUnsafe sender_pc with
    | none => false
    | some sb =>
      if sender_pc = 0 then false
      else if c.isZombie sb || c.isUnloaded sb then false
      else if !(c.codeContains sb sender_pc) then false
      else if c.blobKind sb = .adapter then false
      else if c.returnsToCallStub sender_pc then
        if !(t.isInStackRangeExcl saved_fp sender_sp) then false
        else
          -- validate the JavaCallWrapper the entry frame must have
          let sender := mkFrame c sender_sp sender_unextended_sp saved_fp sender_pc
          let jcw := c.entryFrameCallWrapper sender
          t.isInStackRangeExcl jcw sender.fp
      else if c.blobKind sb = .optimizedEntry then false
      else if c.blobKind sb = .compiled &&
          (c.isDeoptMhEntry sb sender_pc || c.isDeoptEntry sb sender_pc ||
           c.isMethodHandleIntrinsic sb) then false
      else if c.frameSize sb ≤ 0 then false
      else if !(c.blobKind sb = .compiled) then false
      else true

/-- Body of `safe_for_sender` once the frame is known to the code cache
(lines 97-243), after the frame-completeness gate. -/
def safe_for_sender_cb (t : Thread) (c : Ctx) (m : Mem) (f : Frame)
    (b : Nat) (fpSafe : Bool) : Bool :=
  -- line 98: pc could be a random pointer within the blob's other areas
  if !(c.codeContains b f.pc) then false
  -- lines 103-108: entry and optimized-entry frames
  else if c.returnsToCallStub f.pc then fpSafe && c.entryFrameValid f
  else if c.blobKind b = .optimizedEntry then fpSafe
  else if c.interpreterContains f.pc then
    -- interpreted frame: fp must be safe, sender read at fixed fp offsets
    if !fpSafe then false
    else
      let sender_pc := m (f.fp + wordSize * return_addr_offset)
      let sender_sp := f.fp + wordSize * sender_sp_offset
      let sender_unextended_sp :=
        m (f.fp + wordSize * interpreter_frame_sender_sp_offset)
      let saved_fp := m (f.fp + wordSize * link_offset)
      safe_sender_check t c m f sender_sp sender_unextended_sp saved_fp sender_pc
  else
    -- compiled/runtime frame: fp does not have to be safe
    if c.frameSize b ≤ 0 then false
    else
      let sender_sp := compiled_sender_sp c f b
      if !(t.isInFullStackChecked sender_sp) then false
      else
        let sender_unextended_sp := sender_sp
        let sender_pc := m (sender_sp - wordSize)
        let saved_fp := m (sender_sp - wordSize * sender_sp_offset)
        safe_sender_check t c m f sender_sp sender_unextended_sp saved_fp sender_pc

/-- `frame::safe_for_sender` (lines 57-262). -/
def safe_for_sender (t : Thread) (c : Ctx) (m : Mem) (f : Frame) : Bool :=
  -- sp must be within the usable (non-guard) part of the stack
  if !(t.isInUsableStack f.sp) then false
  -- unextended sp must be within the stack and above or equal sp
  else if !(t.isInStackRangeIncl f.unextendedSp f.sp) then false
  else
    let fpSafe := fp_safe_check t f
    match f.cb with
    | some b =>
      -- lines 91-95: frame-completeness gate
      if !(c.frameCompleteAt b f.pc) &&
          (c.blobKind b = .compiled || c.blobKind b = .adapter ||
           c.blobKind b = .runtimeStub) then false
      else safe_for_sender_cb t c m f b fpSafe
    | none =>
      -- native frame: fp must be safe and the fetched pc non-zero
      if !fpSafe then false
      else if m (f.fp + wordSize * return_addr_offset) = 0 then false
      else true

/-- `frame::is_compiled_frame()`: the owning region exists and is compiled. -/
def is_compiled_frame (c : Ctx) (f : Frame) : Bool :=
  match f.cb with
  | some b => c.blobKind b = .compiled
  | none => false

/-- The deopt-entry check of the assertion at line 290:
`_cb->as_compiled_method()->is_deopt_entry(_pc)`. -/
def deopt_entry_at (c : Ctx) (f : Frame) : Bool :=
  match f.cb with
  | some b => c.isDeoptEntry b f.pc
  | none => false

/-- The consistency assertion of `patch_pc` (line 278): the physical
return-address slot must hold the frame's recorded pc, the new target pc,
or zero. -/
def patch_pc_slot_ok (framePc slotVal newPc : Int) : Bool :=
  framePc = slotVal || newPc = slotVal || slotVal = 0

/-- `frame::patch_pc` (lines 265-301).  Writes `pc` into the physical
return-address slot at `sp[-1]` and recomputes the logical pc / deopt
state.  Fatal assertion failures are modelled as `none`; on success the
updated memory and frame are returned. -/
def patch_pc (c : Ctx) (m : Mem) (f : Frame) (pc : Int) :
    Option (Mem × Frame) :=
  -- assert(_cb == CodeCache::find_blob(pc), "unexpected pc")
  if f.cb ≠ c.findBlob pc then none
  else
    let pcAddr := f.sp - wordSize
    -- assert(!Continuation::is_return_barrier_entry(*pc_addr))
    if c.isReturnBarrierEntry (m pcAddr) then none
    -- assert(_pc == *pc_addr || pc == *pc_addr || *pc_addr == 0, "")
    else if !(patch_pc_slot_ok f.pc (m pcAddr) pc) then none
    else
      let oldPc := f.pc
      let m' := Function.update m pcAddr pc
      -- _pc must be set before the call to get_deopt_original_pc
      let f1 : Frame := { f with pc := pc }
      match c.getDeoptOriginalPc f1.cb f1.pc m' with
      | some originalPc =>
        -- assert(original_pc == old_pc, "expected original PC stored")
        if originalPc ≠ oldPc then none
        else
          let f2 : Frame :=
            { f1 with deoptState := .is_deoptimized, pc := originalPc }
          -- assert(!is_compiled_frame() || !..is_deopt_entry(_pc))
          if is_compiled_frame c f2 && deopt_entry_at c f2 then none
          else some (m', f2)
      | none =>
        let f2 : Frame := { f1 with deoptState := .not_deoptimized }
        if is_compiled_frame c f2 && deopt_entry_at c f2 then none
        else some (m', f2)

/-- A write into the `jvalue` union: which field was written, with the
value stored there. -/
inductive JValueWrite where
  | z (v : Int)
  | b (v : Int)
  | c (v : Int)
  | s (v : Int)
  | i (v : Int)
  | j (v : Int)
  | f (v : Int)
  | d (v : Int)
deriving DecidableEq, Repr

/-- Truncate a word to its low unsigned `bits`-bit field. -/
def truncU (bits : Nat) (w : Int) : Int := w % (2 ^ bits)

/-- Truncate a word to its low signed `bits`-bit field. -/
def truncS (bits : Nat) (w : Int) : Int :=
  (w + 2 ^ (bits - 1)) % 2 ^ bits - 2 ^ (bits - 1)

/-- Outcome of `interpreter_frame_result`: the object output (if written),
the primitive `jvalue` output (if written), and the returned `BasicType`. -/
structure IFResult where
  oopResult : Option Int
  valueResult : Option JValueWrite
  typ : BasicType
deriving DecidableEq, Repr

/-- `frame::interpreter_frame_result` (lines 526-590), AMD64 paths.
`ShouldNotReachHere` on an unrecognized kind — and the debug heap sanity
check on a decoded object — are modelled as `none`.  The method reference
and the non-native top-of-expression-stack address come from accessors
declared outside this translation unit; modelled from the spec as the
oracles `Ctx.frameMethod` and `Ctx.tosAddress` ("uses the standard
top-of-expression-stack address"). -/
def interpreter_frame_result (c : Ctx) (m : Mem) (f : Frame) :
    Option IFResult :=
  let method := c.frameMethod f
  let typ := c.resultType method
  let tosAddr :=
    if c.isNative method then
      -- native: possible result pushed at sp; jfloat/jdouble staged after
      -- two extra interpreter stack slots (push(ltos) after XMM0)
      if typ = .T_FLOAT || typ = .T_DOUBLE then
        f.sp + wordSize * (2 * Interpreter_stackElementWords)
      else f.sp
    else c.tosAddress f
  match typ with
  | .T_OBJECT | .T_ARRAY =>
    let obj :=
      if c.isNative method then
        m (f.fp + wordSize * interpreter_frame_oop_temp_offset)
      else if tosAddr = 0 then 0
      else m tosAddr
    -- assert(Universe::is_in_heap_or_null(obj), "sanity check")
    if !(obj = 0 || c.isInHeap obj) then none
    else some ⟨some obj, none, typ⟩
  | .T_BOOLEAN => some ⟨none, some (.z (truncU 8 (m tosAddr))), typ⟩
  | .T_BYTE => some ⟨none, some (.b (truncS 8 (m tosAddr))), typ⟩
  | .T_CHAR => some ⟨none, some (.c (truncU 16 (m tosAddr))), typ⟩
  | .T_SHORT => some ⟨none, some (.s (truncS 16 (m tosAddr))), typ⟩
  | .T_INT => some ⟨none, some (.i (truncS 32 (m tosAddr))), typ⟩
  | .T_LONG => some ⟨none, some (.j (m tosAddr)), typ⟩
  | .T_FLOAT => some ⟨none, some (.f (truncU 32 (m tosAddr))), typ⟩
  | .T_DOUBLE => some ⟨none, some (.d (m tosAddr)), typ⟩
  | .T_VOID => some ⟨none, none, typ⟩
  | .T_ILLEGAL => none

/-- Modelled from the spec: `JavaFrameAnchor::walkable()` (platform anchor
header, not part of this translation unit) — the anchor is walkable when
both its last Java sp and its pc have been recorded ("two-state walkable
flag"). -/
def JavaFrameAnchor.walkable (a : JavaFrameAnchor) : Bool :=
  a.lastJavaSp ≠ 0 && a.lastJavaPc ≠ 0

/-- `JavaFrameAnchor::capture_last_Java_pc` (lines 680-684): reads the
word immediately below the recorded sp into the pc field.  The two
`vmassert`s (a last frame must be set; the pc must not already be
captured) are modelled as `none`. -/
def JavaFrameAnchor.capture_last_Java_pc (m : Mem) (a : JavaFrameAnchor) :
    Option JavaFrameAnchor :=
  if a.lastJavaSp = 0 then none
  else if a.lastJavaPc ≠ 0 then none
  else some { a with lastJavaPc := m (a.lastJavaSp - wordSize) }

/-- The per-walk register map; only the mode flag that this file's code
observes (`include_argument_oops`, set by `clear`) is modelled. -/
structure RegisterMap where
  includeArgumentOops : Bool
deriving DecidableEq, Repr

/-- Modelled from the spec: `RegisterMap::clear` resets the map at an
entry-frame boundary; the assertion at line 360 records that it sets
`include_argument_oops`. -/
def RegisterMap.clear (_ : RegisterMap) : RegisterMap :=
  { includeArgumentOops := true }

/-- Common body of `sender_for_entry_frame` (lines 346-365) and
`sender_for_optimized_entry_frame` (lines 381-401), given the anchor the
frame resolves to.  Asserts (anchor is not the first frame; anchor sp above
this frame; captured pc non-null) are modelled as `none`; on success the
possibly-captured anchor, the cleared map and the sender frame are
returned. -/
def sender_from_anchor (c : Ctx) (m : Mem) (f : Frame) (map : RegisterMap)
    (jfa : JavaFrameAnchor) : Option (JavaFrameAnchor × RegisterMap × Frame) :=
  -- assert(!entry_frame_is_first(), "next Java fp must be non zero")
  if jfa.lastJavaSp = 0 then none
  -- assert(jfa->last_Java_sp() > sp(), "must be above this frame on stack")
  else if !(jfa.lastJavaSp > f.sp) then none
  else
    -- capture the pc once if the anchor is not yet walkable
    match (if !jfa.walkable then jfa.capture_last_Java_pc m else some jfa) with
    | none => none
    | some jfa' =>
      let map' := map.clear
      -- vmassert(jfa->last_Java_pc() != NULL, "not walkable")
      if jfa'.lastJavaPc = 0 then none
      else
        some (jfa', map',
          mkFrame c jfa'.lastJavaSp jfa'.lastJavaSp jfa'.lastJavaFp
            jfa'.lastJavaPc)

/-- `frame::sender_for_entry_frame` (lines 346-365); the anchor comes from
`entry_frame_call_wrapper()->anchor()`, an accessor outside this
translation unit, modelled as the oracle `Ctx.entryFrameAnchor`. -/
def sender_for_entry_frame (c : Ctx) (m : Mem) (f : Frame)
    (map : RegisterMap) : Option (JavaFrameAnchor × RegisterMap × Frame) :=
  sender_from_anchor c m f map (c.entryFrameAnchor f)

/-- `frame::sender_for_optimized_entry_frame` (lines 381-401); the anchor
comes from `blob->jfa_for_frame(*this)`, modelled as the oracle
`Ctx.optEntryAnchor`. -/
def sender_for_optimized_entry_frame (c : Ctx) (m : Mem) (f : Frame)
    (map : RegisterMap) : Option (JavaFrameAnchor × RegisterMap × Frame) :=
  sender_from_anchor c m f map (c.optEntryAnchor f)

/-! Concrete fixtures used by witness and counterexample theorems. -/

/-- All-zero stack memory. -/
def memZ : Mem := fun _ => 0

/-- Memory holding `60` in the word at address `1008` (the return-address
slot below a sender sp of `1016`), zero elsewhere. -/
def memStk : Mem := fun a => if a = 1008 then 60 else 0

/-- Memory holding the 64-bit value `42` at address `800`. -/
def mem42 : Mem := fun a => if a = 800 then 42 else 0

/-- A thread oracle that accepts every bounds query. -/
def thrAll : Thread :=
  { isInUsableStack := fun _ => true
    isInStackRangeIncl := fun _ _ => true
    isInStackRangeExcl := fun _ _ => true
    isInFullStackChecked := fun _ => true }

/-- A thread oracle whose usable-stack test rejects everything. -/
def thrNoUsable : Thread :=
  { thrAll with isInUsableStack := fun _ => false }

/-- A thread oracle whose exclusive-range test rejects everything (so no
fp is ever safe). -/
def thrNoExcl : Thread :=
  { thrAll with isInStackRangeExcl := fun _ _ => false }

/-- A benign baseline context: one compiled, complete, live code region
(`0`) owning every pc, a compiled sender region (`1`), no interpreter or
stub hits, no continuations, no deopt. -/
def baseCtx : Ctx :=
  { blobKind := fun _ => .compiled
    frameCompleteAt := fun _ _ => true
    codeContains := fun _ _ => true
    frameSize := fun _ => 2
    isZombie := fun _ => false
    isUnloaded := fun _ => false
    isDeoptEntry := fun _ _ => false
    isDeoptMhEntry := fun _ _ => false
    isMethodHandleIntrinsic := fun _ => false
    findBlob := fun _ => some 0
    findBlobUnsafe := fun _ => some 1
    returnsToCallStub := fun _ => false
    interpreterContains := fun _ => false
    isReturnBarrierEntry := fun _ => false
    fixContBottomSender := fun _ p s => (p, s)
    entryFrameValid := fun _ => true
    entryFrameCallWrapper := fun _ => 0
    isValidMethod := fun _ => true
    maxStack := fun _ => 8
    validateBciFromBcp := fun _ _ => 0
    metaspaceValid := fun _ => true
    getDeoptOriginalPc := fun _ _ _ => none
    frameMethod := fun _ => 7
    resultType := fun _ => .T_VOID
    isNative := fun _ => false
    tosAddress := fun _ => 800
    isInHeap := fun _ => true
    entryFrameAnchor := fun _ => ⟨2000, 900, 70⟩
    optEntryAnchor := fun _ => ⟨2000, 900, 70⟩ }

/-- A candidate frame: sp = unextended sp = 1000, fp = 1100, pc = 50,
owned by region 0. -/
def frA : Frame :=
  { sp := 1000, unextendedSp := 1000, fp := 1100, pc := 50,
    cb := some 0, deoptState := .not_deoptimized }

/-- `frA` with a garbage fp (999, below sp) — only compiled frames may
still validate with it. -/
def frBadFp : Frame := { frA with fp := 999 }

/-- `frA` with no owning code region (a native frame). -/
def frNative : Frame := { frA with cb := none }

/-- Context whose region 0 is a generic buffer blob that is never
frame-complete. -/
def ctxIncompleteBuffer : Ctx :=
  { baseCtx with blobKind := fun b => if b = 0 then .buffer else .compiled
                 frameCompleteAt := fun _ _ => false }

/-- Context whose regions are compiled but never frame-complete. -/
def ctxIncompleteCompiled : Ctx :=
  { baseCtx with frameCompleteAt := fun _ _ => false }

/-- Context in which every pc returns to the call stub (entry frames). -/
def ctxEntry : Ctx := { baseCtx with returnsToCallStub := fun _ => true }

/-- Context whose regions are optimized-entry blobs. -/
def ctxOptEntry : Ctx := { baseCtx with blobKind := fun _ => .optimizedEntry }

/-- Context in which every pc lies in interpreter code. -/
def ctxInterp : Ctx := { baseCtx with interpreterContains := fun _ => true }

/-- Context in which only pc `70` lies in interpreter code. -/
def ctxInterp70 : Ctx :=
  { baseCtx with interpreterContains := fun p => p = 70 }

/-- `memZ` after patching `60` into the return-address slot of `frA`
(byte address 992 = sp - one word). -/
def patchM : Mem := Function.update memZ 992 60

/-- The frame `frA` after a successful non-deoptimizing patch to pc 60. -/
def patchFres : Frame := { frA with pc := 60 }

/-- Memory whose return-address slot for `frA` holds the stray value 77. -/
def memSlot77 : Mem := fun a => if a = 992 then 77 else 0

/-- Context whose method reports result kind long. -/
def ctxLong : Ctx := { baseCtx with resultType := fun _ => .T_LONG }

/-- Context whose method reports an unrecognized result kind. -/
def ctxIllegal : Ctx := { baseCtx with resultType := fun _ => .T_ILLEGAL }

/-- Context with an object result kind and a null top-of-stack address. -/
def ctxObjNull : Ctx :=
  { baseCtx with resultType := fun _ => .T_OBJECT
                 tosAddress := fun _ => 0 }

/-- Context with an object result kind on a native method. -/
def ctxObjNative : Ctx :=
  { baseCtx with resultType := fun _ => .T_OBJECT
                 isNative := fun _ => true }

/-- Context whose frame anchors have not yet captured their pc. -/
def ctxUncap : Ctx :=
  { baseCtx with entryFrameAnchor := fun _ => ⟨2000, 900, 0⟩
                 optEntryAnchor := fun _ => ⟨2000, 900, 0⟩ }

/-- Memory holding pc 70 in the word just below stack address 2000. -/
def memRet : Mem := fun a => if a = 1992 then 70 else 0

/-- Frame whose oop-temp slot (fp + 16) is the address 1008, where
`memStk` holds 60. -/
def frObjNative : Frame := { frA with fp := 992 }

/-- Modelled from the spec: the per-thread Stack-Bounds Oracle with
concrete bounds.  The stack occupies addresses below `base` (the stack
top, its highest address) and grows downward; a range test passes when
the address is below the stack base and above its limit (source
comments, lines 68-75: "unextended sp must be within the stack and above
or equal sp"; "an fp must be within the stack and above (but not equal)
sp"); the usable test excludes the guard region below `usableLimit`, and
the full-stack test admits everything above `fullLimit`. -/
def mkThread (base usableLimit fullLimit : Int) : Thread :=
  { isInUsableStack := fun a => decide (usableLimit ≤ a) && decide (a < base)
    isInStackRangeIncl := fun a limit => decide (limit ≤ a) && decide (a < base)
    isInStackRangeExcl := fun a limit => decide (limit < a) && decide (a < base)
    isInFullStackChecked := fun a => decide (fullLimit ≤ a) && decide (a < base) }

/-- Concrete stack bounds: stack top at 4096, guard region below 64. -/
def thrWalk : Thread := mkThread 4096 64 0

/-- An interpreted candidate frame for a full concrete walk:
sp = unextended sp = 1040, fp = 1104, pc = 50. -/
def frWalk : Frame :=
  { sp := 1040, unextendedSp := 1040, fp := 1104, pc := 50,
    cb := some 0, deoptState := .not_deoptimized }

/-- Stack memory for the `frWalk` walk: return address 70 at 1112 (the
sender pc), sender unextended sp 1120 at 1096, saved fp 1200 at the link
slot 1104, and in the sender frame a method reference (7) at 1176 and a
locals pointer 1280 at 1144. -/
def memWalk : Mem := fun a =>
  if a = 1112 then 70
  else if a = 1096 then 1120
  else if a = 1104 then 1200
  else if a = 1176 then 7
  else if a = 1144 then 1280
  else 0

/-- Context in which pc 66 is a continuation return-barrier entry. -/
def ctxBarrier : Ctx :=
  { baseCtx with isReturnBarrierEntry := fun p => p = 66 }

/-- `memZ` after patching 66 into the return-address slot of `frA`. -/
def patchMB : Mem := Function.update memZ 992 66

/-- The frame `frA` after a successful non-deoptimizing patch to pc 66. -/
def patchFresB : Frame := { frA with pc := 66 }

/-- C1: for a frame whose owning code region is not frame-complete at its
pc, `safe_for_sender` returns false when the region's kind is
compiled/adapter/runtime-stub; for any other kind the incompleteness alone
does not reject — validation continues with the remaining checks
(`safe_for_sender_cb`). -/
theorem safe_for_sender_incomplete_region
    (t : Thread) (c : Ctx) (m : Mem) (f : Frame) (b : Nat)
    (hcb : f.cb = some b)
    (hinc : c.frameCompleteAt b f.pc = false) :
    ((c.blobKind b = .compiled ∨ c.blobKind b = .adapter ∨
        c.blobKind b = .runtimeStub) → safe_for_sender t c m f = false) ∧
    (c.blobKind b ≠ .compiled → c.blobKind b ≠ .adapter →
      c.blobKind b ≠ .runtimeStub →
      t.isInUsableStack f.sp = true →
      t.isInStackRangeIncl f.unextendedSp f.sp = true →
      safe_for_sender t c m f =
        safe_for_sender_cb t c m f b (fp_safe_check t f)) := by
  constructor
  · intro hk
    unfold safe_for_sender
    rw [hcb]
    rcases hk with h | h | h <;> simp [hinc, h]
  · intro h1 h2 h3 hu hi
    unfold safe_for_sender
    rw [hcb]
    simp [hu, hi, hinc, h1, h2, h3]

/-- Witness for C1 at concrete inputs: an incomplete compiled region is
rejected; an incomplete generic buffer region proceeds to the remaining
checks. -/
theorem safe_for_sender_incomplete_region_witness :
    safe_for_sender thrAll ctxIncompleteCompiled memZ frA = false ∧
    safe_for_sender thrAll ctxIncompleteBuffer memZ frA =
      safe_for_sender_cb thrAll ctxIncompleteBuffer memZ frA 0
        (fp_safe_check thrAll frA) :=
  ⟨(safe_for_sender_incomplete_region thrAll ctxIncompleteCompiled memZ frA 0
      rfl rfl).1 (Or.inl rfl),
   (safe_for_sender_incomplete_region thrAll ctxIncompleteBuffer memZ frA 0
      rfl rfl).2 (by decide) (by decide) (by decide) rfl rfl⟩

/-- C3: for a compiled/runtime frame the provisional sender sp is exactly
`unextended_sp + frame size` (in words); a non-positive declared frame
size is rejected, a sender sp outside the full stack bounds is rejected,
and otherwise validation proceeds on exactly that sender sp. -/
theorem safe_for_sender_compiled_frame
    (t : Thread) (c : Ctx) (m : Mem) (f : Frame) (b : Nat)
    (hcb : f.cb = some b)
    (hcomp : c.frameCompleteAt b f.pc = true)
    (hcont : c.codeContains b f.pc = true)
    (hstub : c.returnsToCallStub f.pc = false)
    (hopt : c.blobKind b ≠ .optimizedEntry)
    (hint : c.interpreterContains f.pc = false)
    (hu : t.isInUsableStack f.sp = true)
    (hi : t.isInStackRangeIncl f.unextendedSp f.sp = true) :
    compiled_sender_sp c f b = f.unextendedSp + wordSize * c.frameSize b ∧
    (c.frameSize b ≤ 0 → safe_for_sender t c m f = false) ∧
    (t.isInFullStackChecked (compiled_sender_sp c f b) = false →
      safe_for_sender t c m f = false) ∧
    (0 < c.frameSize b →
      t.isInFullStackChecked (compiled_sender_sp c f b) = true →
      safe_for_sender t c m f =
        safe_sender_check t c m f (compiled_sender_sp c f b)
          (compiled_sender_sp c f b)
          (m (compiled_sender_sp c f b - wordSize * sender_sp_offset))
          (m (compiled_sender_sp c f b - wordSize))) := by
  refine ⟨rfl, ?_, ?_, ?_⟩
  · intro hsz
    unfold safe_for_sender safe_for_sender_cb
    rw [hcb]
    simp [hu, hi, hcomp, hcont, hstub, hopt, hint, hsz]
  · intro hfs
    unfold safe_for_sender safe_for_sender_cb
    rw [hcb]
    simp [hu, hi, hcomp, hcont, hstub, hopt, hint, hfs]
  · intro hsz hfs
    unfold safe_for_sender safe_for_sender_cb
    rw [hcb]
    have hns : ¬ c.frameSize b ≤ 0 := by omega
    simp [hu, hi, hcomp, hcont, hstub, hopt, hint, hns, hfs]

/-- Witness for C3 at concrete inputs (declared frame size 2 words). -/
theorem safe_for_sender_compiled_frame_witness :
    compiled_sender_sp baseCtx frA 0 =
      frA.unextendedSp + wordSize * baseCtx.frameSize 0 ∧
    safe_for_sender thrAll baseCtx memStk frA =
      safe_sender_check thrAll baseCtx memStk frA
        (compiled_sender_sp baseCtx frA 0) (compiled_sender_sp baseCtx frA 0)
        (memStk (compiled_sender_sp baseCtx frA 0 - wordSize * sender_sp_offset))
        (memStk (compiled_sender_sp baseCtx frA 0 - wordSize)) :=
  ⟨(safe_for_sender_compiled_frame thrAll baseCtx memStk frA 0
      rfl rfl rfl rfl (by decide) rfl rfl rfl).1,
   (safe_for_sender_compiled_frame thrAll baseCtx memStk frA 0
      rfl rfl rfl rfl (by decide) rfl rfl rfl).2.2.2 (by decide) rfl⟩

/-- C4 counterexample: a full concrete interpreted walk under concrete
stack bounds (stack top 4096) that `safe_for_sender` accepts, whose
provisional sender pc (70) lies in interpreter code and whose saved fp
(1200) does not lie in the claimed exclusive range (sp, sender sp) =
(1040, 1120): it lies strictly above the sender sp.  So "returns true
only if the provisional saved fp lies within (sp, sender sp)" is false
as stated. -/
theorem safe_for_sender_interpreter_sender_fp_above :
    safe_for_sender thrWalk ctxInterp memWalk frWalk = true ∧
    ctxInterp.interpreterContains
      (memWalk (frWalk.fp + wordSize * return_addr_offset)) = true ∧
    ¬(frWalk.sp < memWalk (frWalk.fp + wordSize * link_offset) ∧
      memWalk (frWalk.fp + wordSize * link_offset) <
        frWalk.fp + wordSize * sender_sp_offset) :=
  ⟨rfl, rfl, by decide⟩

/-- C4 as amended: whenever the provisional sender's pc lies inside
interpreter code (and is not a continuation return-barrier), the shared
sender validation of `safe_for_sender` under concrete stack bounds
succeeds exactly when the saved fp lies strictly above the sender sp and
within the stack — the exclusive range (sender sp, stack top), not
(sp, sender sp) — and the sender frame constructed from (sender sp,
sender unextended sp, saved fp, sender pc) is accepted by
`is_interpreted_frame_valid`; and for an interpreted current frame
`safe_for_sender` delegates to exactly that validation on the
provisional sender read at the fixed fp offsets. -/
theorem safe_sender_check_interpreter_sender :
    (∀ (base usableLimit fullLimit : Int) (c : Ctx) (m : Mem) (f : Frame)
       (ssp susp sfp spc : Int),
      c.isReturnBarrierEntry spc = false →
      c.interpreterContains spc = true →
      (safe_sender_check (mkThread base usableLimit fullLimit) c m f
          ssp susp sfp spc = true ↔
        (ssp < sfp ∧ sfp < base ∧
         is_interpreted_frame_valid (mkThread base usableLimit fullLimit)
           c m (mkFrame c ssp susp sfp spc) = true))) ∧
    (∀ (t : Thread) (c : Ctx) (m : Mem) (f : Frame) (b : Nat),
      f.cb = some b →
      c.frameCompleteAt b f.pc = true →
      c.codeContains b f.pc = true →
      c.returnsToCallStub f.pc = false →
      c.blobKind b ≠ .optimizedEntry →
      c.interpreterContains f.pc = true →
      t.isInUsableStack f.sp = true →
      t.isInStackRangeIncl f.unextendedSp f.sp = true →
      fp_safe_check t f = true →
      safe_for_sender t c m f =
        safe_sender_check t c m f (f.fp + wordSize * sender_sp_offset)
          (m (f.fp + wordSize * interpreter_frame_sender_sp_offset))
          (m (f.fp + wordSize * link_offset))
          (m (f.fp + wordSize * return_addr_offset))) := by
  constructor
  · intro base ul fl c m f ssp susp sfp spc hbar hint
    unfold safe_sender_check
    by_cases h1 : ssp < sfp <;> by_cases h2 : sfp < base <;>
      simp [hbar, hint, mkThread, h1, h2]
  · intro t c m f b hcb hcomp hcont hstub hopt hint hu hi hfp
    unfold safe_for_sender safe_for_sender_cb
    rw [hcb]
    simp [hu, hi, hcomp, hcont, hstub, hopt, hint, hfp]

/-- Witness for C4's amended statement: the fp-range equivalence at the
concrete accepted walk (saved fp 1200 strictly above the sender sp 1120,
below the stack top 4096), and the delegation for an interpreted current
frame. -/
theorem safe_sender_check_interpreter_sender_witness :
    (safe_sender_check thrWalk ctxInterp memWalk frWalk
        1120 1120 1200 70 = true ↔
      ((1120 : Int) < 1200 ∧ (1200 : Int) < 4096 ∧
       is_interpreted_frame_valid thrWalk ctxInterp memWalk
         (mkFrame ctxInterp 1120 1120 1200 70) = true)) ∧
    safe_for_sender thrAll ctxInterp memZ frA =
      safe_sender_check thrAll ctxInterp memZ frA
        (frA.fp + wordSize * sender_sp_offset)
        (memZ (frA.fp + wordSize * interpreter_frame_sender_sp_offset))
        (memZ (frA.fp + wordSize * link_offset))
        (memZ (frA.fp + wordSize * return_addr_offset)) :=
  ⟨safe_sender_check_interpreter_sender.1 4096 64 0 ctxInterp memWalk frWalk
      1120 1120 1200 70 rfl rfl,
   safe_sender_check_interpreter_sender.2 thrAll ctxInterp memZ frA 0
      rfl rfl rfl rfl (by decide) rfl rfl rfl rfl⟩

/-- C5 counterexample: a compiled frame whose fp fails the exclusive
stack-range check is still accepted by `safe_for_sender` (compiled frames
do not require a safe fp), so "returns false for every candidate frame
whose fp lies outside (sp, stack top)" is false as stated. -/
theorem safe_for_sender_fp_outside_accepted :
    safe_for_sender thrNoExcl baseCtx memStk frBadFp = true ∧
    thrNoExcl.isInStackRangeExcl frBadFp.fp frBadFp.sp = false := by
  constructor <;> rfl

/-- C5 as amended: `safe_for_sender` rejects any frame whose sp is not in
usable stack memory; an fp failing the exclusive stack-range check forces
rejection for entry, optimized-entry, interpreted and no-region (native)
frames — the frame kinds whose validation requires a safe fp. -/
theorem safe_for_sender_guard_and_fp :
    (∀ (t : Thread) (c : Ctx) (m : Mem) (f : Frame),
      t.isInUsableStack f.sp = false → safe_for_sender t c m f = false) ∧
    (∀ (t : Thread) (c : Ctx) (m : Mem) (f : Frame) (b : Nat),
      f.cb = some b →
      t.isInStackRangeExcl f.fp f.sp = false →
      c.returnsToCallStub f.pc = true → safe_for_sender t c m f = false) ∧
    (∀ (t : Thread) (c : Ctx) (m : Mem) (f : Frame) (b : Nat),
      f.cb = some b →
      t.isInStackRangeExcl f.fp f.sp = false →
      c.blobKind b = .optimizedEntry → safe_for_sender t c m f = false) ∧
    (∀ (t : Thread) (c : Ctx) (m : Mem) (f : Frame) (b : Nat),
      f.cb = some b →
      t.isInStackRangeExcl f.fp f.sp = false →
      c.interpreterContains f.pc = true → safe_for_sender t c m f = false) ∧
    (∀ (t : Thread) (c : Ctx) (m : Mem) (f : Frame),
      f.cb = none →
      t.isInStackRangeExcl f.fp f.sp = false →
      safe_for_sender t c m f = false) := by
  refine ⟨?_, ?_, ?_, ?_, ?_⟩
  · intro t c m f hu
    unfold safe_for_sender
    simp [hu]
  · intro t c m f b hcb hexcl hstub
    unfold safe_for_sender safe_for_sender_cb fp_safe_check
    rw [hcb]
    simp [hexcl, hstub]
  · intro t c m f b hcb hexcl hopt
    unfold safe_for_sender safe_for_sender_cb fp_safe_check
    rw [hcb]
    simp [hexcl, hopt]
  · intro t c m f b hcb hexcl hint
    unfold safe_for_sender safe_for_sender_cb fp_safe_check
    rw [hcb]
    simp [hexcl, hint]
  · intro t c m f hcb hexcl
    unfold safe_for_sender fp_safe_check
    rw [hcb]
    simp [hexcl]

/-- Witness for C5's amended statement at concrete inputs, one per
rejected frame kind. -/
theorem safe_for_sender_guard_and_fp_witness :
    safe_for_sender thrNoUsable baseCtx memZ frA = false ∧
    safe_for_sender thrNoExcl ctxEntry memZ frA = false ∧
    safe_for_sender thrNoExcl ctxOptEntry memZ frA = false ∧
    safe_for_sender thrNoExcl ctxInterp memZ frA = false ∧
    safe_for_sender thrNoExcl baseCtx memZ frNative = false :=
  ⟨safe_for_sender_guard_and_fp.1 thrNoUsable baseCtx memZ frA rfl,
   safe_for_sender_guard_and_fp.2.1 thrNoExcl ctxEntry memZ frA 0 rfl rfl rfl,
   safe_for_sender_guard_and_fp.2.2.1 thrNoExcl ctxOptEntry memZ frA 0
     rfl rfl rfl,
   safe_for_sender_guard_and_fp.2.2.2.1 thrNoExcl ctxInterp memZ frA 0
     rfl rfl rfl,
   safe_for_sender_guard_and_fp.2.2.2.2 thrNoExcl baseCtx memZ frNative
     rfl rfl⟩

/-- C2: after a successful `patch_pc`, the physical return-address slot at
`sp[-1]` holds the new pc, the patch precondition (the code cache resolves
the new pc to the frame's recorded region) held, and the logical pc /
deopt state follow the recoverable-original-pc split: if an original pc is
recoverable from the patched frame the state is deoptimized and the
logical pc is that original pc (the physical slot keeping the handler
address); otherwise the state is not-deoptimized and the logical pc is the
new pc. -/
theorem patch_pc_post (c : Ctx) (m : Mem) (f : Frame) (pc : Int)
    (m' : Mem) (f' : Frame)
    (h : patch_pc c m f pc = some (m', f')) :
    f.cb = c.findBlob pc ∧
    m' (f.sp - wordSize) = pc ∧
    f'.sp = f.sp ∧ f'.cb = f.cb ∧
    (match c.getDeoptOriginalPc f.cb pc m' with
     | some orig => f'.deoptState = .is_deoptimized ∧ f'.pc = orig
     | none => f'.deoptState = .not_deoptimized ∧ f'.pc = pc) := by
  simp only [patch_pc] at h
  split at h
  · exact Option.noConfusion h
  next hg =>
    split at h
    · exact Option.noConfusion h
    next hbar =>
      split at h
      · exact Option.noConfusion h
      next hok =>
        split at h
        next orig horacle =>
          split at h
          · exact Option.noConfusion h
          next hneq =>
            split at h
            · exact Option.noConfusion h
            next hde =>
              simp only [Option.some.injEq, Prod.mk.injEq] at h
              obtain ⟨hm, hf⟩ := h
              subst hm
              subst hf
              refine ⟨not_not.mp hg, Function.update_same _ _ _, rfl, rfl, ?_⟩
              rw [horacle]
              exact ⟨rfl, rfl⟩
        next horacle =>
          split at h
          · exact Option.noConfusion h
          next hde =>
            simp only [Option.some.injEq, Prod.mk.injEq] at h
            obtain ⟨hm, hf⟩ := h
            subst hm
            subst hf
            refine ⟨not_not.mp hg, Function.update_same _ _ _, rfl, rfl, ?_⟩
            rw [horacle]
            exact ⟨rfl, rfl⟩

/-- Witness for C2 at a concrete successful, non-deoptimizing patch. -/
theorem patch_pc_post_witness :
    frA.cb = baseCtx.findBlob 60 ∧
    patchM (frA.sp - wordSize) = 60 ∧
    patchFres.sp = frA.sp ∧ patchFres.cb = frA.cb ∧
    (patchFres.deoptState = .not_deoptimized ∧ patchFres.pc = 60) :=
  patch_pc_post baseCtx memZ frA 60 patchM patchFres rfl

/-- C6 counterexample, refuting both conjuncts of the claim at explicit
inputs.  (i) Patching when the physical slot holds zero — neither the
frame's recorded pc (50) nor the new target pc (60) — is not fatal:
`patch_pc` succeeds.  (ii) Unqualified idempotence fails: when the
target pc (66) is a continuation return-barrier entry, the first patch
succeeds but the second invocation with the same target reads the
freshly patched barrier pc from the slot and trips the line-276 assert,
so two consecutive invocations do not end like one. -/
theorem patch_pc_stray_zero_not_fatal :
    ((patch_pc baseCtx memZ frA 60).isSome = true ∧
     memZ (frA.sp - wordSize) ≠ frA.pc ∧
     memZ (frA.sp - wordSize) ≠ 60) ∧
    (patch_pc ctxBarrier memZ frA 66 = some (patchMB, patchFresB) ∧
     patch_pc ctxBarrier patchMB patchFresB 66 = none) :=
  ⟨⟨rfl, by decide, by decide⟩, rfl, rfl⟩

/-- C6 as amended: re-patching to the same (non-return-barrier) target pc
is idempotent — the second invocation leaves the identical memory and
frame; and an invocation whose prior physical slot value is neither the
frame's recorded pc, nor the new target pc, nor zero is a fatal assertion
failure. -/
theorem patch_pc_idempotent_and_fatal :
    (∀ (c : Ctx) (m : Mem) (f : Frame) (pc : Int) (m' : Mem) (f' : Frame),
      c.isReturnBarrierEntry pc = false →
      patch_pc c m f pc = some (m', f') →
      patch_pc c m' f' pc = some (m', f')) ∧
    (∀ (c : Ctx) (m : Mem) (f : Frame) (pc : Int),
      f.cb = c.findBlob pc →
      c.isReturnBarrierEntry (m (f.sp - wordSize)) = false →
      m (f.sp - wordSize) ≠ f.pc →
      m (f.sp - wordSize) ≠ pc →
      m (f.sp - wordSize) ≠ 0 →
      patch_pc c m f pc = none) := by
  constructor
  · intro c m f pc m' f' hbarpc h
    simp only [patch_pc] at h
    split at h
    · exact Option.noConfusion h
    next hg =>
      split at h
      · exact Option.noConfusion h
      next hbar =>
        split at h
        · exact Option.noConfusion h
        next hok =>
          split at h
          next orig horacle =>
            split at h
            · exact Option.noConfusion h
            next hneq =>
              split at h
              · exact Option.noConfusion h
              next hde =>
                simp only [Option.some.injEq, Prod.mk.injEq] at h
                obtain ⟨hm, hf⟩ := h
                subst hm
                subst hf
                simp only [patch_pc, Function.update_same, Function.update_idem,
                  hbarpc, Bool.false_eq_true, if_false]
                rw [if_neg hg]
                rw [if_neg (show ¬(!patch_pc_slot_ok orig pc pc) = true by
                  simp [patch_pc_slot_ok])]
                simp only [horacle]
                rw [if_neg (show ¬orig ≠ orig from fun hh => hh rfl)]
                rw [if_neg hde]
          next horacle =>
            split at h
            · exact Option.noConfusion h
            next hde =>
              simp only [Option.some.injEq, Prod.mk.injEq] at h
              obtain ⟨hm, hf⟩ := h
              subst hm
              subst hf
              simp only [patch_pc, Function.update_same, Function.update_idem,
                hbarpc, Bool.false_eq_true, if_false]
              rw [if_neg hg]
              rw [if_neg (by simp [patch_pc_slot_ok])]
              rw [horacle]
              rw [if_neg hde]
  · intro c m f pc hg hbar h1 h2 h3
    simp only [patch_pc]
    rw [if_neg (by simp [hg])]
    simp [patch_pc_slot_ok, hbar, Ne.symm h1, Ne.symm h2, h3]

/-- Witness for C6's amended statement: a concrete re-patch to the same
target is a no-op, and a concrete stray slot value (77) is fatal. -/
theorem patch_pc_idempotent_and_fatal_witness :
    patch_pc baseCtx patchM patchFres 60 = some (patchM, patchFres) ∧
    patch_pc baseCtx memSlot77 frA 60 = none :=
  ⟨patch_pc_idempotent_and_fatal.1 baseCtx memZ frA 60 patchM patchFres
      rfl rfl,
   patch_pc_idempotent_and_fatal.2 baseCtx memSlot77 frA 60 rfl rfl
      (by decide) (by decide) (by decide)⟩

/-- C9: the consistency assertion of `patch_pc` also tolerates a zeroed
physical return-address slot: with the slot holding `0` the assertion
passes and (the remaining asserts holding) the patch completes normally
rather than failing fatally. -/
theorem patch_pc_tolerates_zero_slot
    (c : Ctx) (m : Mem) (f : Frame) (pc : Int)
    (hg : f.cb = c.findBlob pc)
    (hslot : m (f.sp - wordSize) = 0)
    (hbar : c.isReturnBarrierEntry 0 = false)
    (hde : c.getDeoptOriginalPc f.cb pc
        (Function.update m (f.sp - wordSize) pc) = none)
    (hnd : (is_compiled_frame c
              { f with pc := pc, deoptState := .not_deoptimized } &&
            deopt_entry_at c
              { f with pc := pc, deoptState := .not_deoptimized }) = false) :
    patch_pc_slot_ok f.pc (m (f.sp - wordSize)) pc = true ∧
    patch_pc c m f pc =
      some (Function.update m (f.sp - wordSize) pc,
            { f with pc := pc, deoptState := .not_deoptimized }) := by
  constructor
  · simp [patch_pc_slot_ok, hslot]
  · simp only [patch_pc]
    rw [if_neg (by simp [hg])]
    rw [hslot, if_neg (by simp [hbar])]
    rw [if_neg (show ¬(!patch_pc_slot_ok f.pc 0 pc) = true by
      simp [patch_pc_slot_ok])]
    simp only [hde]
    rw [if_neg (by simp [hnd])]

/-- Witness for C9: a zeroed slot at a concrete input patches through. -/
theorem patch_pc_tolerates_zero_slot_witness :
    patch_pc_slot_ok frA.pc (memZ (frA.sp - wordSize)) 60 = true ∧
    patch_pc baseCtx memZ frA 60 =
      some (Function.update memZ (frA.sp - wordSize) 60,
            { frA with pc := 60, deoptState := .not_deoptimized }) :=
  patch_pc_tolerates_zero_slot baseCtx memZ frA 60 rfl rfl rfl rfl (by decide)

/-- C7: `interpreter_frame_result` dispatches exhaustively on the declared
result kind: kind long writes the 64-bit word at the top-of-operand-stack
address into the primitive field `j` and leaves the object output
untouched; kind void writes neither output and its result is independent
of the frame memory; no kind ever writes both outputs; an unrecognized
kind is fatal. -/
theorem interpreter_frame_result_dispatch :
    (∀ (c : Ctx) (m : Mem) (f : Frame),
      c.resultType (c.frameMethod f) = .T_LONG →
      interpreter_frame_result c m f =
        some ⟨none,
          some (.j (m (if c.isNative (c.frameMethod f) then f.sp
                       else c.tosAddress f))),
          .T_LONG⟩) ∧
    (∀ (c : Ctx) (m : Mem) (f : Frame),
      c.resultType (c.frameMethod f) = .T_VOID →
      interpreter_frame_result c m f = some ⟨none, none, .T_VOID⟩) ∧
    (∀ (c : Ctx) (m1 m2 : Mem) (f : Frame),
      c.resultType (c.frameMethod f) = .T_VOID →
      interpreter_frame_result c m1 f = interpreter_frame_result c m2 f) ∧
    (∀ (c : Ctx) (m : Mem) (f : Frame) (r : IFResult),
      interpreter_frame_result c m f = some r →
      ¬(r.oopResult.isSome = true ∧ r.valueResult.isSome = true)) ∧
    (∀ (c : Ctx) (m : Mem) (f : Frame),
      c.resultType (c.frameMethod f) = .T_ILLEGAL →
      interpreter_frame_result c m f = none) := by
  refine ⟨?_, ?_, ?_, ?_, ?_⟩
  · intro c m f ht
    simp [interpreter_frame_result, ht]
  · intro c m f ht
    simp only [interpreter_frame_result, ht]
  · intro c m1 m2 f ht
    simp only [interpreter_frame_result, ht]
  · intro c m f r h
    rintro ⟨ho, hv⟩
    cases htyp : c.resultType (c.frameMethod f) <;>
      simp only [interpreter_frame_result, htyp] at h
    case T_ILLEGAL => exact Option.noConfusion h
    case T_OBJECT =>
      simp only [Option.ite_none_left_eq_some, Option.some.injEq] at h
      obtain ⟨hc, h⟩ := h
      subst h
      simp at hv
    case T_ARRAY =>
      simp only [Option.ite_none_left_eq_some, Option.some.injEq] at h
      obtain ⟨hc, h⟩ := h
      subst h
      simp at hv
    all_goals
      simp only [Option.some.injEq] at h
      subst h
      simp at ho
  · intro c m f ht
    simp only [interpreter_frame_result, ht]

/-- Witness for C7 at concrete inputs: a synthetic frame whose
top-of-stack word is 42 requested with kind long yields primitive output
42 and no object output; kind void writes neither output on two different
memories; an unrecognized kind is fatal. -/
theorem interpreter_frame_result_dispatch_witness :
    interpreter_frame_result ctxLong mem42 frA =
      some ⟨none, some (.j 42), .T_LONG⟩ ∧
    interpreter_frame_result baseCtx mem42 frA = some ⟨none, none, .T_VOID⟩ ∧
    interpreter_frame_result baseCtx mem42 frA =
      interpreter_frame_result baseCtx memZ frA ∧
    ¬((⟨none, some (.j 42), .T_LONG⟩ : IFResult).oopResult.isSome = true ∧
      (⟨none, some (.j 42), .T_LONG⟩ : IFResult).valueResult.isSome = true) ∧
    interpreter_frame_result ctxIllegal mem42 frA = none :=
  ⟨interpreter_frame_result_dispatch.1 ctxLong mem42 frA rfl,
   interpreter_frame_result_dispatch.2.1 baseCtx mem42 frA rfl,
   interpreter_frame_result_dispatch.2.2.1 baseCtx mem42 memZ frA rfl,
   interpreter_frame_result_dispatch.2.2.2.1 ctxLong mem42 frA
     ⟨none, some (.j 42), .T_LONG⟩
     (interpreter_frame_result_dispatch.1 ctxLong mem42 frA rfl),
   interpreter_frame_result_dispatch.2.2.2.2 ctxIllegal mem42 frA rfl⟩

/-- C10: for object/array result kinds `interpreter_frame_result` never
reads through a null top-of-stack address: for a non-native method a null
top-of-stack pointer yields a null object result (independently of the
memory), and for a native method the object is read from the frame's
oop-temp slot, not from the operand-stack address. -/
theorem interpreter_frame_result_object_safe
    (c : Ctx) (m : Mem) (f : Frame)
    (ht : c.resultType (c.frameMethod f) = .T_OBJECT ∨
          c.resultType (c.frameMethod f) = .T_ARRAY) :
    (c.isNative (c.frameMethod f) = false → c.tosAddress f = 0 →
      interpreter_frame_result c m f =
        some ⟨some 0, none, c.resultType (c.frameMethod f)⟩) ∧
    (c.isNative (c.frameMethod f) = true →
      (m (f.fp + wordSize * interpreter_frame_oop_temp_offset) = 0 ∨
       c.isInHeap (m (f.fp + wordSize * interpreter_frame_oop_temp_offset))
         = true) →
      interpreter_frame_result c m f =
        some ⟨some (m (f.fp + wordSize * interpreter_frame_oop_temp_offset)),
              none, c.resultType (c.frameMethod f)⟩) := by
  constructor
  · intro hn hz
    rcases ht with h | h <;> simp [interpreter_frame_result, h, hn, hz]
  · intro hn hheap
    rcases ht with h | h <;>
      rcases hheap with hh | hh <;>
        simp [interpreter_frame_result, h, hn, hh]

/-- Witness for C10: a null non-native top-of-stack yields a null object;
a native method reads the oop-temp slot (address fp + 16, holding 60 in
`memStk` for fp = 992). -/
theorem interpreter_frame_result_object_safe_witness :
    interpreter_frame_result ctxObjNull memStk frA =
      some ⟨some 0, none, ctxObjNull.resultType (ctxObjNull.frameMethod frA)⟩ ∧
    interpreter_frame_result ctxObjNative memStk frObjNative =
      some ⟨some (memStk (frObjNative.fp + wordSize *
              interpreter_frame_oop_temp_offset)),
            none, ctxObjNative.resultType (ctxObjNative.frameMethod frObjNative)⟩ :=
  ⟨(interpreter_frame_result_object_safe ctxObjNull memStk frA
      (Or.inl rfl)).1 rfl rfl,
   (interpreter_frame_result_object_safe ctxObjNative memStk frObjNative
      (Or.inl rfl)).2 rfl (Or.inr rfl)⟩

/-- Helper: a walkable anchor passes through `sender_from_anchor`
unchanged — no capture is performed. -/
theorem sender_from_anchor_walkable_keeps (c : Ctx) (m : Mem) (f : Frame)
    (map : RegisterMap) (jfa a : JavaFrameAnchor) (mp : RegisterMap)
    (fr : Frame) (hw : jfa.walkable = true)
    (h : sender_from_anchor c m f map jfa = some (a, mp, fr)) : a = jfa := by
  simp only [sender_from_anchor, hw, Bool.not_true, Bool.false_eq_true,
    if_false] at h
  split at h
  · exact Option.noConfusion h
  split at h
  · exact Option.noConfusion h
  split at h
  · exact Option.noConfusion h
  simp only [Option.some.injEq, Prod.mk.injEq] at h
  exact h.1.symm

/-- Helper: any successful `sender_from_anchor` leaves a non-null pc in
the resulting anchor. -/
theorem sender_from_anchor_pc_nonzero (c : Ctx) (m : Mem) (f : Frame)
    (map : RegisterMap) (jfa a : JavaFrameAnchor) (mp : RegisterMap)
    (fr : Frame)
    (h : sender_from_anchor c m f map jfa = some (a, mp, fr)) :
    a.lastJavaPc ≠ 0 := by
  simp only [sender_from_anchor] at h
  split at h
  · exact Option.noConfusion h
  split at h
  · exact Option.noConfusion h
  split at h
  next hcap => exact Option.noConfusion h
  next jfa2 hcap =>
    split at h
    · exact Option.noConfusion h
    next hpc =>
      simp only [Option.some.injEq, Prod.mk.injEq] at h
      rw [← h.1]
      exact hpc

/-- Helper: on a non-walkable anchor, `sender_from_anchor` performs the
capture: the resulting anchor's pc is the word below the recorded sp. -/
theorem sender_from_anchor_captures (c : Ctx) (m : Mem) (f : Frame)
    (map : RegisterMap) (jfa a : JavaFrameAnchor) (mp : RegisterMap)
    (fr : Frame) (hw : jfa.walkable = false)
    (h : sender_from_anchor c m f map jfa = some (a, mp, fr)) :
    a.lastJavaPc = m (jfa.lastJavaSp - wordSize) := by
  simp only [sender_from_anchor, hw, Bool.not_false, if_true] at h
  split at h
  · exact Option.noConfusion h
  next hsp =>
    split at h
    · exact Option.noConfusion h
    split at h
    next hcap => exact Option.noConfusion h
    next jfa2 hcap =>
      simp only [JavaFrameAnchor.capture_last_Java_pc, hsp, if_false] at hcap
      split at hcap
      · exact Option.noConfusion hcap
      simp only [Option.some.injEq] at hcap
      split at h
      · exact Option.noConfusion h
      simp only [Option.some.injEq, Prod.mk.injEq] at h
      rw [← h.1, ← hcap]

/-- C8: anchor pc capture is at-most-once.  For both
`sender_for_entry_frame` and `sender_for_optimized_entry_frame`: a
walkable anchor is used as-is (no capture), a successful walk always
leaves a non-null anchor pc, a non-walkable anchor has its pc captured
from the word below its recorded sp, and `capture_last_Java_pc` on an
anchor whose pc is already non-null is a fatal assertion failure. -/
theorem anchor_capture_at_most_once :
    (∀ (c : Ctx) (m : Mem) (f : Frame) (map : RegisterMap)
       (a : JavaFrameAnchor) (mp : RegisterMap) (fr : Frame),
      (c.entryFrameAnchor f).walkable = true →
      sender_for_entry_frame c m f map = some (a, mp, fr) →
      a = c.entryFrameAnchor f) ∧
    (∀ (c : Ctx) (m : Mem) (f : Frame) (map : RegisterMap)
       (a : JavaFrameAnchor) (mp : RegisterMap) (fr : Frame),
      (c.optEntryAnchor f).walkable = true →
      sender_for_optimized_entry_frame c m f map = some (a, mp, fr) →
      a = c.optEntryAnchor f) ∧
    (∀ (c : Ctx) (m : Mem) (f : Frame) (map : RegisterMap)
       (a : JavaFrameAnchor) (mp : RegisterMap) (fr : Frame),
      sender_for_entry_frame c m f map = some (a, mp, fr) →
      a.lastJavaPc ≠ 0) ∧
    (∀ (c : Ctx) (m : Mem) (f : Frame) (map : RegisterMap)
       (a : JavaFrameAnchor) (mp : RegisterMap) (fr : Frame),
      sender_for_optimized_entry_frame c m f map = some (a, mp, fr) →
      a.lastJavaPc ≠ 0) ∧
    (∀ (c : Ctx) (m : Mem) (f : Frame) (map : RegisterMap)
       (a : JavaFrameAnchor) (mp : RegisterMap) (fr : Frame),
      (c.entryFrameAnchor f).walkable = false →
      sender_for_entry_frame c m f map = some (a, mp, fr) →
      a.lastJavaPc = m ((c.entryFrameAnchor f).lastJavaSp - wordSize)) ∧
    (∀ (c : Ctx) (m : Mem) (f : Frame) (map : RegisterMap)
       (a : JavaFrameAnchor) (mp : RegisterMap) (fr : Frame),
      (c.optEntryAnchor f).walkable = false →
      sender_for_optimized_entry_frame c m f map = some (a, mp, fr) →
      a.lastJavaPc = m ((c.optEntryAnchor f).lastJavaSp - wordSize)) ∧
    (∀ (m : Mem) (a : JavaFrameAnchor), a.lastJavaPc ≠ 0 →
      a.capture_last_Java_pc m = none) := by
  refine ⟨?_, ?_, ?_, ?_, ?_, ?_, ?_⟩
  · intro c m f map a mp fr hw h
    exact sender_from_anchor_walkable_keeps c m f map _ a mp fr hw h
  · intro c m f map a mp fr hw h
    exact sender_from_anchor_walkable_keeps c m f map _ a mp fr hw h
  · intro c m f map a mp fr h
    exact sender_from_anchor_pc_nonzero c m f map _ a mp fr h
  · intro c m f map a mp fr h
    exact sender_from_anchor_pc_nonzero c m f map _ a mp fr h
  · intro c m f map a mp fr hw h
    exact sender_from_anchor_captures c m f map _ a mp fr hw h
  · intro c m f map a mp fr hw h
    exact sender_from_anchor_captures c m f map _ a mp fr hw h
  · intro m a hpc
    simp [JavaFrameAnchor.capture_last_Java_pc, hpc]

/-- Witness for C8 at concrete inputs: a walkable anchor (pc 70) is
passed through with a non-null pc; a non-walkable anchor captures pc 70
from memory; capturing an already-captured anchor is fatal. -/
theorem anchor_capture_at_most_once_witness :
    (⟨2000, 900, 70⟩ : JavaFrameAnchor) = baseCtx.entryFrameAnchor frA ∧
    (⟨2000, 900, 70⟩ : JavaFrameAnchor) = baseCtx.optEntryAnchor frA ∧
    (⟨2000, 900, 70⟩ : JavaFrameAnchor).lastJavaPc ≠ 0 ∧
    (⟨2000, 900, 70⟩ : JavaFrameAnchor).lastJavaPc =
      memRet ((ctxUncap.entryFrameAnchor frA).lastJavaSp - wordSize) ∧
    JavaFrameAnchor.capture_last_Java_pc memZ ⟨2000, 900, 70⟩ = none :=
  ⟨anchor_capture_at_most_once.1 baseCtx memZ frA ⟨false⟩ ⟨2000, 900, 70⟩
     ⟨true⟩ (mkFrame baseCtx 2000 2000 900 70) rfl rfl,
   anchor_capture_at_most_once.2.1 baseCtx memZ frA ⟨false⟩ ⟨2000, 900, 70⟩
     ⟨true⟩ (mkFrame baseCtx 2000 2000 900 70) rfl rfl,
   anchor_capture_at_most_once.2.2.1 baseCtx memZ frA ⟨false⟩
     ⟨2000, 900, 70⟩ ⟨true⟩ (mkFrame baseCtx 2000 2000 900 70) rfl,
   anchor_capture_at_most_once.2.2.2.2.1 ctxUncap memRet frA ⟨false⟩
     ⟨2000, 900, 70⟩ ⟨true⟩ (mkFrame ctxUncap 2000 2000 900 70) rfl rfl,
   anchor_capture_at_most_once.2.2.2.2.2.2 memZ ⟨2000, 900, 70⟩
     (by decide)⟩
